import Mathlib

/-!
Verification of the PyBGP session core (bgp_message.py, bgp_fsm.py,
bgp_fsm_established.py) against its natural-language specification.

The Python source is shallowly embedded: byte buffers become `List Nat`
(each entry a byte value), fallible constructors become `Option`/`Except`
valued functions (`none` / `.error` marks a Python exception such as
IndexError, struct.error or AttributeError), and the mutable session
object becomes a `Session` record threaded explicitly.
-/

namespace PyBgp

set_option autoImplicit false

/-- Python slice `data[a:b]` on a byte buffer (never raises, clamps). -/
def byteSlice (data : List Nat) (a b : Nat) : List Nat :=
  (data.drop a).take (b - a)

/-- struct.unpack of a big-endian 16-bit integer: requires exactly two
bytes, `none` models struct.error on a short buffer. -/
def unpack16H (l : List Nat) : Option Nat :=
  match l with
  | [a, b] => some (a * 256 + b)
  | _ => none

/-- struct.pack of a big-endian 16-bit integer (source values are always
below 65536 where this is applied, so the masking is inert there). -/
def pack16 (n : Nat) : List Nat :=
  [n / 256 % 256, n % 256]

/-- struct.pack of a big-endian 32-bit integer. -/
def pack32 (n : Nat) : List Nat :=
  [n / 16777216 % 256, n / 65536 % 256, n / 256 % 256, n % 256]

/-- Big-endian value of a byte list; used for the 32-bit router id, which
the source keeps as a dotted-quad string (the dotted-quad rendering is a
bijection with the 4-byte value, so equality of the strings coincides
with equality of these numbers). -/
def beNat (l : List Nat) : Nat :=
  l.foldl (fun acc b => acc * 256 + b) 0

/-- Embeds the Python class IPv4Prefix: prefix length byte, the computed
value-byte count `size`, and the (zero-padded) value bytes.  The field
`size` is computed exactly as in the source:
`(len >> 3) + ((len & 3) and 1)`. -/
structure PfxV4 where
  len : Nat
  size : Nat
  bytes : List Nat
deriving DecidableEq

/-- Embeds IPv4Prefix.__init__ on a non-empty raw buffer (the only way the
source calls it); `headD` stands for `raw_data[0]`. -/
def PfxV4.ofRaw (raw : List Nat) : PfxV4 :=
  let l := raw.headD 0
  let sz := (l >>> 3) + (if l &&& 3 ≠ 0 then 1 else 0)
  { len := l, size := sz, bytes := byteSlice raw 1 (1 + sz) ++ List.replicate (4 - sz) 0 }

/-- Structurally recursive core of the prefix-extraction loop; the fuel
argument only bounds the recursion depth and is never exhausted when it
starts at the buffer length, because every iteration consumes at least
the length byte. -/
def parsePfxListAux : Nat → List Nat → List PfxV4
  | 0, _ => []
  | _, [] => []
  | fuel + 1, h :: t =>
    let p := PfxV4.ofRaw (h :: t)
    p :: parsePfxListAux fuel (t.drop p.size)

/-- Embeds the source prefix-extraction loop
`while i < len(raw): p := IPv4Prefix(raw[i:]); i += p.size + 1`. -/
def parsePfxList (raw : List Nat) : List PfxV4 :=
  parsePfxListAux raw.length raw

/-- Embeds the attribute set of the Python class DecodeMessage.  Fields the
constructor only sets on some paths are `Option`-valued (`none` models the
attribute not having been assigned). -/
structure DecodeMessage where
  data_length_error : Bool := false
  data_length_expected : Nat := 19
  data_length_received : Nat
  message_error_code : Nat := 0
  message_error_subcode : Nat := 0
  message_error_data : List Nat := []
  length : Option Nat := none
  type : Option Nat := none
  version : Option Nat := none
  asn : Option Nat := none
  hold_time : Option Nat := none
  id : Option Nat := none
  opt_len : Option Nat := none
  opt_param : Option (List Nat) := none
  prefixes_del : Option (List PfxV4) := none
  prefixes_add : Option (List PfxV4) := none
  error_code : Option Nat := none
  error_subcode : Option Nat := none
  error_data : Option (List Nat) := none
deriving DecidableEq

/-- Embeds DecodeMessage.__init__ from bgp_message.py.  `local_id` is the
32-bit value of the configured local router id, `peer_asn` the configured
peer ASN.  Returns `none` where the Python constructor raises (IndexError
on `data[29]`, struct.error on a short unpack in the UPDATE branch). -/
def decodeMessage (data : List Nat) (local_id : Nat) (peer_asn : Nat) :
    Option DecodeMessage :=
  let base : DecodeMessage := { data_length_received := data.length }
  if data.length < 19 then
    some { base with data_length_error := true }
  else if (byteSlice data 0 16).any (fun m => m ≠ 255) then
    some { base with message_error_code := 1, message_error_subcode := 1 }
  else
    match unpack16H (byteSlice data 16 18), data[18]? with
    | some len, some ty =>
      let base := { base with length := some len, type := some ty }
      if len < 19 || 4096 < len then
        some { base with
          message_error_code := 1, message_error_subcode := 2,
          message_error_data := pack16 len }
      else if !(ty == 1 || ty == 2 || ty == 3 || ty == 4) then
        some { base with
          message_error_code := 1, message_error_subcode := 3,
          message_error_data := [ty % 256] }
      else if data.length < len then
        some { base with data_length_error := true, data_length_expected := len }
      else if ty == 1 then
        if len < 29 then
          some { base with
            message_error_code := 1, message_error_subcode := 2,
            message_error_data := pack16 len }
        else
          match data[19]?, unpack16H (byteSlice data 20 22),
                unpack16H (byteSlice data 23 25), data[29]? with
          | some v, some a, some h, some ol =>
            let idv := beNat (byteSlice data 25 29)
            let d := { base with
              version := some v, asn := some a,
              hold_time := some h, id := some idv, opt_len := some ol,
              opt_param := some (byteSlice data 29 len) }
            let d := if v ≠ 4 then
              { d with message_error_code := 2, message_error_subcode := 1 } else d
            let d := if a ≠ peer_asn then
              { d with message_error_code := 2, message_error_subcode := 2 } else d
            let d := if idv = local_id then
              { d with message_error_code := 2, message_error_subcode := 3 } else d
            let d := if h == 1 || h == 2 then
              { d with message_error_code := 2, message_error_subcode := 6 } else d
            some d
          | _, _, _, _ => none
      else if ty == 2 then
        match unpack16H (byteSlice data 19 21) with
        | none => none
        | some pdl =>
          let pdel := parsePfxList (byteSlice data 21 (21 + pdl))
          match unpack16H (byteSlice data (21 + pdl) (21 + pdl + 2)) with
          | none => none
          | some al =>
            let padd := parsePfxList (data.drop (21 + pdl + 2 + al))
            some { base with prefixes_del := some pdel, prefixes_add := some padd }
      else if ty == 3 then
        if len < 21 then
          some { base with
            message_error_code := 1, message_error_subcode := 2,
            message_error_data := pack16 len }
        else
          match data[19]?, data[20]? with
          | some ec, some es =>
            some { base with
              error_code := some ec, error_subcode := some es,
              error_data := some (byteSlice data 21 len) }
          | _, _ => none
      else
        some base
    | _, _ => none

/-- Embeds the Python class Open (constructor field computations). -/
structure OpenMsg where
  len : Nat
  type : Nat
  version : Nat
  asn : Nat
  hold_time : Nat
  bgp_id : Nat
  opt_len : Nat
  opt : List Nat
deriving DecidableEq

/-- Embeds Open.__init__: `local_id` is already the 32-bit value that
`struct.unpack` of `inet_aton` produces in the source. -/
def OpenMsg.make (local_id local_asn local_hold_time : Nat) (opt : List Nat)
    (version : Nat) : OpenMsg :=
  { len := 29 + opt.length, type := 1, version := version, asn := local_asn,
    hold_time := local_hold_time, bgp_id := local_id, opt_len := opt.length,
    opt := opt }

/-- Embeds Open.write. -/
def OpenMsg.write (m : OpenMsg) : List Nat :=
  List.replicate 16 255 ++ pack16 m.len ++ [m.type % 256] ++ [m.version % 256] ++
    pack16 m.asn ++ pack16 m.hold_time ++ pack32 m.bgp_id ++ [m.opt_len % 256] ++ m.opt

/-- Embeds the Python class Notification. -/
structure NotificationMsg where
  len : Nat
  type : Nat
  error_code : Nat
  error_subcode : Nat
  data : List Nat
deriving DecidableEq

/-- Embeds Notification.__init__. -/
def NotificationMsg.make (error_code error_subcode : Nat) (data : List Nat) :
    NotificationMsg :=
  { len := 21 + data.length, type := 3, error_code := error_code,
    error_subcode := error_subcode, data := data }

/-- Embeds Notification.write. -/
def NotificationMsg.write (m : NotificationMsg) : List Nat :=
  List.replicate 16 255 ++ pack16 m.len ++ [m.type % 256] ++
    [m.error_code % 256] ++ [m.error_subcode % 256] ++ m.data

/-- Embeds Keepalive.write. -/
def keepaliveWrite : List Nat :=
  List.replicate 16 255 ++ pack16 19 ++ [4]

/-- The six FSM state names of bgp_fsm.py, in the order the fsm() loop
checks them. -/
inductive StateName where
  | idle
  | connect
  | active
  | openSent
  | openConfirm
  | established
deriving DecidableEq

/-- Position of a state in the fsm() if-chain. -/
def chainIndex : StateName → Nat
  | .idle => 0
  | .connect => 1
  | .active => 2
  | .openSent => 3
  | .openConfirm => 4
  | .established => 5

/-- The canonical FSM event names (spec section 3). -/
inductive EventKind where
  | manualStart
  | manualStop
  | automaticStop
  | connectRetryTimerExpires
  | holdTimerExpires
  | keepaliveTimerExpires
  | delayOpenTimerExpires
  | idleHoldTimerExpires
  | tcpCRAcked
  | tcpConnectionConfirmed
  | tcpConnectionFails
  | bgpOpen
  | bgpOpenDelay
  | bgpHeaderErr
  | bgpOpenMsgErr
  | notifMsgVerErr
  | notifMsg
  | keepAliveMsg
  | updateMsg
  | updateMsgErr
deriving DecidableEq

/-- An FSM event: kind, the serial number stamped by enqueue_event, and a
payload (the peer-advertised hold time carried by a BGPOpen event; 0 for
the other kinds). -/
structure Event where
  kind : EventKind
  serial : Nat
  payload : Nat
deriving DecidableEq

/-- Embeds the mutable attribute set of the BgpFsm session object
(bgp_fsm.py __init__), restricted to the fields the verified claims
mention. -/
structure Session where
  local_id : Nat
  local_asn : Nat
  local_hold_time : Nat
  peer_ip : Nat
  peer_asn : Nat
  modeActive : Bool
  peer_port : Nat
  peer_id : Option Nat
  event_queue : List Event
  event_serial_number : Nat
  tcp_connection_established : Bool
  state : StateName
  connect_retry_counter : Nat
  connect_retry_timer : Nat
  connect_retry_time : Nat
  hold_timer : Nat
  hold_time : Nat
  keepalive_timer : Nat
  keepalive_time : Nat
deriving DecidableEq

/-- A freshly constructed session (BgpFsm.__init__ field values, with the
scenario-1 configuration of spec section 8). -/
def initSession : Session :=
  { local_id := 16843009, local_asn := 65001, local_hold_time := 90,
    peer_ip := 33686018, peer_asn := 65002, modeActive := true,
    peer_port := 0, peer_id := none, event_queue := [],
    event_serial_number := 0, tcp_connection_established := false,
    state := .idle, connect_retry_counter := 0, connect_retry_timer := 0,
    connect_retry_time := 5, hold_timer := 0, hold_time := 0,
    keepalive_timer := 0, keepalive_time := 0 }

/-- Modelled from the spec: network_io.close_connection is not under src;
spec section 4.2 says close() is idempotent and closes any live
connection, so it clears the live-connection flag. -/
def close_connection (s : Session) : Session :=
  { s with tcp_connection_established := false }

/-- Embeds BgpFsm.change_state: sets the state and, when the new state is
Idle, zeroes connect_retry_timer, keepalive_timer, hold_timer and
peer_port and closes the TCP connection.  The source assertion on the
state name is vacuous here because StateName only has the six legal
values. -/
def change_state (s : Session) (st : StateName) : Session :=
  let s1 := { s with state := st }
  if st = .idle then
    close_connection { s1 with
      connect_retry_timer := 0, keepalive_timer := 0, hold_timer := 0,
      peer_port := 0 }
  else s1

/-- Embeds BgpFsm.enqueue_event.  Returns the updated session and the
serial number stamped onto the event.  The source wrap check
`if self.event_serial_number > 65535: event_serial_number = 1` assigns a
fresh local variable, not the field, so it has no effect and is omitted
(it is a dead store in Python). -/
def enqueue_event (s : Session) (e : Event) : Session × Nat :=
  let sn := s.event_serial_number + 1
  let e1 := { e with serial := sn }
  let q := if e.kind = .manualStop || e.kind = .automaticStop then [] else s.event_queue
  ({ s with event_serial_number := sn, event_queue := q ++ [e1] }, sn)

/-- A message handed to the transport for sending. -/
inductive SentMsg where
  | openMsg
  | keepalive
  | notification (code : Nat)
  | update
deriving DecidableEq

/-- A Python runtime exception escaping a handler. -/
inductive PyErr where
  | attributeError
deriving DecidableEq

/-- Embeds bgp_fsm_established.fsm_established.  Each branch of the
source's if-chain matches exactly one event name, so the chain is a match
on the event kind.  The FSM-error branch (events 9, 12, 13, 20, 21, 22)
calls `self.send_notificaion_message`, an attribute that does not exist
(the class only defines send_notification_message), so it raises
AttributeError before touching the session. -/
def fsm_established (s : Session) (e : Event) :
    Except PyErr (Session × List SentMsg) :=
  match e.kind with
  | .manualStop =>
    .ok (change_state { s with connect_retry_counter := 0 } .idle,
      [.notification 6])
  | .automaticStop =>
    .ok (change_state
      { s with connect_retry_counter := s.connect_retry_counter + 1 } .idle,
      [.notification 6])
  | .holdTimerExpires =>
    .ok (change_state
      { s with connect_retry_counter := s.connect_retry_counter + 1 } .idle,
      [.notification 4])
  | .keepaliveTimerExpires =>
    .ok ({ s with keepalive_timer := s.keepalive_time }, [.keepalive])
  | .tcpConnectionFails | .notifMsgVerErr | .notifMsg =>
    .ok (change_state
      { s with connect_retry_counter := s.connect_retry_counter + 1 } .idle, [])
  | .keepAliveMsg =>
    .ok ({ s with hold_timer := s.hold_time }, [])
  | .updateMsg =>
    .ok ({ s with hold_timer := s.hold_time }, [])
  | .updateMsgErr =>
    .ok (change_state
      { s with connect_retry_counter := s.connect_retry_counter + 1 } .idle, [])
  | .connectRetryTimerExpires | .delayOpenTimerExpires | .idleHoldTimerExpires
  | .bgpOpenDelay | .bgpHeaderErr | .bgpOpenMsgErr =>
    .error .attributeError
  | _ => .ok (s, [])

/-- Modelled from the spec: bgp_fsm_idle.fsm_idle is not under src; spec
transition table row Idle + ManualStart. -/
def fsm_idle (s : Session) (e : Event) : Except PyErr (Session × List SentMsg) :=
  match e.kind with
  | .manualStart =>
    let s1 := { s with connect_retry_counter := 0,
                       connect_retry_timer := s.connect_retry_time }
    if s.modeActive then .ok (change_state s1 .connect, [])
    else .ok (change_state s1 .active, [])
  | _ => .ok (s, [])

/-- Modelled from the spec: bgp_fsm_connect.fsm_connect is not under src;
spec transition table rows for Connect. -/
def fsm_connect (s : Session) (e : Event) : Except PyErr (Session × List SentMsg) :=
  match e.kind with
  | .connectRetryTimerExpires =>
    .ok ({ close_connection s with connect_retry_timer := s.connect_retry_time }, [])
  | .tcpCRAcked | .tcpConnectionConfirmed =>
    .ok (change_state { s with connect_retry_timer := 0, hold_timer := 240 }
      .openSent, [.openMsg])
  | .tcpConnectionFails =>
    .ok (change_state
      { close_connection s with connect_retry_timer := s.connect_retry_time }
      .active, [])
  | _ => .ok (s, [])

/-- Modelled from the spec: bgp_fsm_active.fsm_active is not under src;
spec transition table rows for Active. -/
def fsm_active (s : Session) (e : Event) : Except PyErr (Session × List SentMsg) :=
  match e.kind with
  | .tcpCRAcked | .tcpConnectionConfirmed =>
    .ok (change_state { s with hold_timer := 240 } .openSent, [.openMsg])
  | .connectRetryTimerExpires =>
    .ok (change_state { s with connect_retry_timer := s.connect_retry_time }
      .connect, [])
  | _ => .ok (s, [])

/-- Modelled from the spec: bgp_fsm_opensent.fsm_opensent is not under
src; spec transition table rows for OpenSent (hold-time negotiation uses
the peer hold time carried in the BGPOpen event payload). -/
def fsm_opensent (s : Session) (e : Event) : Except PyErr (Session × List SentMsg) :=
  match e.kind with
  | .bgpOpen =>
    let h := min s.local_hold_time e.payload
    let s1 := { s with connect_retry_timer := 0, hold_time := h,
                       keepalive_time := h / 3, hold_timer := h,
                       keepalive_timer := h / 3 }
    .ok (change_state s1 .openConfirm, [.keepalive])
  | .bgpHeaderErr =>
    .ok (change_state
      { s with connect_retry_counter := s.connect_retry_counter + 1 } .idle,
      [.notification 1])
  | .bgpOpenMsgErr =>
    .ok (change_state
      { s with connect_retry_counter := s.connect_retry_counter + 1 } .idle,
      [.notification 2])
  | .holdTimerExpires =>
    .ok (change_state
      { s with connect_retry_counter := s.connect_retry_counter + 1 } .idle,
      [.notification 4])
  | .notifMsgVerErr =>
    .ok (change_state s .idle, [])
  | .tcpConnectionFails =>
    .ok (change_state
      { close_connection s with connect_retry_timer := s.connect_retry_time }
      .active, [])
  | _ => .ok (s, [])

/-- Modelled from the spec: bgp_fsm_openconfirm.fsm_openconfirm is not
under src; spec transition table rows for OpenConfirm. -/
def fsm_openconfirm (s : Session) (e : Event) :
    Except PyErr (Session × List SentMsg) :=
  match e.kind with
  | .keepAliveMsg =>
    .ok (change_state { s with hold_timer := s.hold_time } .established, [])
  | .keepaliveTimerExpires =>
    .ok ({ s with keepalive_timer := s.keepalive_time }, [.keepalive])
  | .holdTimerExpires =>
    .ok (change_state
      { s with connect_retry_counter := s.connect_retry_counter + 1 } .idle,
      [.notification 4])
  | .bgpHeaderErr =>
    .ok (change_state
      { s with connect_retry_counter := s.connect_retry_counter + 1 } .idle,
      [.notification 1])
  | .bgpOpenMsgErr =>
    .ok (change_state
      { s with connect_retry_counter := s.connect_retry_counter + 1 } .idle,
      [.notification 2])
  | .notifMsg | .tcpConnectionFails =>
    .ok (change_state
      { s with connect_retry_counter := s.connect_retry_counter + 1 } .idle, [])
  | _ => .ok (s, [])

/-- The handler belonging to a state name. -/
def handlerFor : StateName → Session → Event → Except PyErr (Session × List SentMsg)
  | .idle => fsm_idle
  | .connect => fsm_connect
  | .active => fsm_active
  | .openSent => fsm_opensent
  | .openConfirm => fsm_openconfirm
  | .established => fsm_established

/-- One `if self.state == N: await self.fsm_N(event)` arm of the fsm()
loop body, threading the session and recording which handlers ran. -/
def branchArm (st : StateName) (e : Event) :
    Session × List StateName → Except PyErr (Session × List StateName) :=
  fun p =>
    if p.1.state = st then
      match handlerFor st p.1 e with
      | .ok (s2, _) => .ok (s2, p.2 ++ [st])
      | .error err => .error err
    else .ok p

/-- Embeds the body of the fsm() loop for one dequeued event: the source
checks the six states with six consecutive independent ifs (no elif), so
a handler that changes the state can make a later arm fire on the same
event.  The trace component lists the handlers that ran, in order. -/
def chainedDispatch (s : Session) (e : Event) :
    Except PyErr (Session × List StateName) :=
  (((((branchArm .idle e (s, [])).bind (branchArm .connect e)).bind
    (branchArm .active e)).bind (branchArm .openSent e)).bind
    (branchArm .openConfirm e)).bind (branchArm .established e)

/-- The dispatch the spec describes: run exactly the handler of the state
current at the moment the event is dequeued. -/
def singleDispatch (s : Session) (e : Event) :
    Except PyErr (Session × List StateName) :=
  match handlerFor s.state s e with
  | .ok (s2, _) => .ok (s2, [s.state])
  | .error err => .error err

/-- Trace of handler states of a dispatch result (empty on an escaping
exception). -/
def dispatchTrace (r : Except PyErr (Session × List StateName)) : List StateName :=
  match r with
  | .ok p => p.2
  | .error _ => []

/-- The Open value used to exhibit the round-trip failure: version 4,
asn 1, hold_time 180, bgp_id 1.1.1.1, one optional-parameter byte. -/
def c1open : OpenMsg := OpenMsg.make 16843009 1 180 [0] 4

/-- A well-formed OPEN buffer (valid marker, length 30, type 1) whose
wire hold_time field at offset 22 is 90 and whose wire bgp_id field at
offset 24 is the bytes 10.20.30.40. -/
def c2buf : List Nat :=
  List.replicate 16 255 ++ [0, 30, 1, 4, 0, 1, 0, 90, 10, 20, 30, 40, 0, 7]

/-- A well-formed OPEN buffer with version 4, asn 1 and wire hold_time 1
at offset 22 (bytes 0, 1). -/
def c3buf : List Nat :=
  List.replicate 16 255 ++ [0, 30, 1, 4, 0, 1, 0, 1, 1, 2, 3, 4, 1, 9]

/-- A complete UPDATE buffer (length 25): empty withdrawn-routes block,
empty path-attributes block, and a 2-byte NLRI remainder [40, 1] whose
single prefix declares length 40, i.e. 5 value bytes where only 1 is
present. -/
def c5buf : List Nat :=
  List.replicate 16 255 ++ [0, 25, 2, 0, 0, 0, 0, 40, 1]

/-- A session sitting in Established with a negotiated hold time. -/
def estSession : Session :=
  { initSession with state := .established, hold_time := 60,
                     hold_timer := 17, keepalive_time := 20, keepalive_timer := 9 }

/-- A session sitting in OpenConfirm with a negotiated hold time. -/
def ocSession : Session :=
  { initSession with state := .openConfirm, hold_time := 60,
                     hold_timer := 30, keepalive_time := 20, keepalive_timer := 9 }

/-- A received KEEPALIVE event. -/
def kaEvent : Event := { kind := .keepAliveMsg, serial := 7, payload := 0 }

/-- The session reached from estSession by the Established KEEPALIVE
handler. -/
def estSession2 : Session := { estSession with hold_timer := estSession.hold_time }

/-- C1: the codec round-trip fails on the code.  For the Open value with
version 4, asn 1, hold_time 180, bgp_id 1.1.1.1 and one opt byte, decoding
the bytes of write() with the matching peer_asn and a different local_id
sets no error code but yields hold_time 46081 and opt_len 0 where the
original had 180 and 1, so decode(encode(v)) differs from v (the decoder
reads the OPEN body one byte beyond the encoder's layout). -/
theorem open_roundtrip_fails :
    (decodeMessage c1open.write 0 1).map (fun d => d.message_error_code) = some 0 ∧
    (decodeMessage c1open.write 0 1).bind (fun d => d.hold_time) = some 46081 ∧
    c1open.hold_time = 180 ∧
    (decodeMessage c1open.write 0 1).bind (fun d => d.opt_len) = some 0 ∧
    c1open.opt_len = 1 ∧
    (46081 : Nat) ≠ 180 := by
  decide

/-- C2: the decoder does not read the OPEN body at the protocol offsets.
On the well-formed OPEN buffer c2buf it accepts the message (no error
code) but decodes hold_time 23050 where the 16-bit big-endian field at
offset 22 is 90, and decodes bgp_id 337520640 where the 4 bytes at offset
24 hold 169090600: the source reads offsets 23..25 and 25..29 instead. -/
theorem open_decode_offsets_shifted :
    (decodeMessage c2buf 0 1).map (fun d => d.message_error_code) = some 0 ∧
    (decodeMessage c2buf 0 1).bind (fun d => d.hold_time) = some 23050 ∧
    unpack16H (byteSlice c2buf 22 24) = some 90 ∧
    (23050 : Nat) ≠ 90 ∧
    (decodeMessage c2buf 0 1).bind (fun d => d.id) = some 337520640 ∧
    beNat (byteSlice c2buf 24 28) = 169090600 ∧
    (337520640 : Nat) ≠ 169090600 := by
  decide

/-- C3: the codec-rejection table is not met by the code for the OPEN
semantic checks.  The buffer c3buf is a complete OPEN whose wire
hold_time field at offset 22 equals 1, so the claim requires error
(2, 6); the decoder reads hold_time from offset 23 (obtaining 257) and
reports no error at all. -/
theorem open_rejection_misses_wire_holdtime :
    unpack16H (byteSlice c3buf 22 24) = some 1 ∧
    (decodeMessage c3buf 0 1).bind (fun d => d.hold_time) = some 257 ∧
    (decodeMessage c3buf 0 1).map (fun d => d.message_error_code) = some 0 ∧
    (decodeMessage c3buf 0 1).map (fun d => d.message_error_subcode) = some 0 ∧
    ((0 : Nat), (0 : Nat)) ≠ ((2 : Nat), (6 : Nat)) := by
  decide

/-- C4: the prefix value-byte count is wrong for L = 4.  The source
computes size with `(len >> 3) + ((len & 3) and 1)`, which gives 0 for
L = 4 although the claim (and ceil(L/8)) require 1; as a result the value
byte 255 is dropped, the prefix reads as 0.0.0.0/4, and the parse loop
consumes only 1 byte, treating the leftover 255 as a second prefix. -/
theorem pfx_size_formula_wrong :
    (PfxV4.ofRaw [4, 255]).len = 4 ∧
    (PfxV4.ofRaw [4, 255]).size = 0 ∧
    (4 + 7) / 8 = 1 ∧
    (PfxV4.ofRaw [4, 255]).bytes = [0, 0, 0, 0] ∧
    (parsePfxList [4, 255]).length = 2 ∧
    (0 : Nat) ≠ 1 := by
  decide

/-- C5: a malformed UPDATE is not reported.  In c5buf the single NLRI
prefix declares length 40 (5 value bytes) while only 1 byte remains in
the message, yet the decoder sets no error code or subcode — the UPDATE
branch of the source performs no validation at all, so no (3, 1) error
ever reaches the FSM as Event 28. -/
theorem update_malformed_unreported :
    (decodeMessage c5buf 0 0).map (fun d => d.message_error_code) = some 0 ∧
    (decodeMessage c5buf 0 0).map (fun d => d.message_error_subcode) = some 0 ∧
    (decodeMessage c5buf 0 0).bind (fun d => d.prefixes_add) =
      some [{ len := 40, size := 5, bytes := [1] }] ∧
    ((decodeMessage c5buf 0 0).bind (fun d => d.prefixes_add)).map
      (fun l => l.map (fun p => p.bytes.length)) = some [1] ∧
    (1 : Nat) ≠ 5 ∧
    ((0 : Nat), (0 : Nat)) ≠ ((3 : Nat), (1 : Nat)) := by
  decide

/-- C6: in Established, each of the events 9, 12, 13, 20, 21 and 22 makes
the handler raise AttributeError (the source calls the misspelled
`send_notificaion_message`), so no NOTIFICATION is sent, the
connect_retry_counter is not incremented and the state never changes to
Idle. -/
theorem established_fsm_error_typo_raises :
    fsm_established estSession { kind := .connectRetryTimerExpires, serial := 1, payload := 0 } =
      .error .attributeError ∧
    fsm_established estSession { kind := .delayOpenTimerExpires, serial := 2, payload := 0 } =
      .error .attributeError ∧
    fsm_established estSession { kind := .idleHoldTimerExpires, serial := 3, payload := 0 } =
      .error .attributeError ∧
    fsm_established estSession { kind := .bgpOpenDelay, serial := 4, payload := 0 } =
      .error .attributeError ∧
    fsm_established estSession { kind := .bgpHeaderErr, serial := 5, payload := 0 } =
      .error .attributeError ∧
    fsm_established estSession { kind := .bgpOpenMsgErr, serial := 6, payload := 0 } =
      .error .attributeError := by
  exact ⟨rfl, rfl, rfl, rfl, rfl, rfl⟩

/-- C7: the serial-number wrap never happens.  From a session whose
event_serial_number is 65535, one more enqueue_event stamps the event
with serial 65536 and leaves the field at 65536 — not 1 as the claim
requires — because the source's wrap check assigns a local variable
instead of the field. -/
theorem enqueue_serial_wrap_dead_store :
    (enqueue_event { initSession with event_serial_number := 65535 } kaEvent).2 = 65536 ∧
    (enqueue_event { initSession with event_serial_number := 65535 } kaEvent).1.event_serial_number = 65536 ∧
    (enqueue_event { initSession with event_serial_number := 65535 } kaEvent).1.event_queue =
      [{ kind := .keepAliveMsg, serial := 65536, payload := 0 }] ∧
    (65536 : Nat) ≠ 1 := by
  decide

/-- C8 counterexample: the chained if-dispatch is not a single dispatch
on the pre-dispatch state.  From OpenConfirm, a KeepAliveMsg event is
processed by the OpenConfirm handler, which moves the state to
Established, and then the same event is also processed by the Established
handler inside the same loop iteration: the chain's handler trace is
[openConfirm, established] where single dispatch runs [openConfirm]
alone. -/
theorem dispatch_chain_double_processes :
    dispatchTrace (chainedDispatch ocSession kaEvent) =
      [StateName.openConfirm, StateName.established] ∧
    dispatchTrace (singleDispatch ocSession kaEvent) = [StateName.openConfirm] ∧
    ([StateName.openConfirm, StateName.established] : List StateName) ≠
      [StateName.openConfirm] := by
  decide

/-- C8 amended: the chained dispatch agrees with the single dispatch on
the pre-dispatch state whenever the handler of that state does not move
the session to a state strictly later in the fixed check order Idle,
Connect, Active, OpenSent, OpenConfirm, Established; when a handler does
move forward (as OpenConfirm does on KeepAliveMsg), the same event is
additionally processed by the later matching handler. -/
theorem dispatch_single_when_no_forward_move (s : Session) (e : Event)
    (s2 : Session) (ms : List SentMsg)
    (hrun : handlerFor s.state s e = .ok (s2, ms))
    (hback : chainIndex s2.state ≤ chainIndex s.state) :
    chainedDispatch s e = singleDispatch s e := by
  cases hs : s.state <;> cases hs2 : s2.state <;>
    simp_all [chainedDispatch, singleDispatch, branchArm, chainIndex, Except.bind]

/-- Witness for the amended C8 theorem at a concrete input: in
Established a KeepAliveMsg leaves the state at Established, so the
chained and single dispatches coincide. -/
theorem dispatch_single_when_no_forward_move_witness :
    handlerFor estSession.state estSession kaEvent = .ok (estSession2, []) ∧
    chainIndex estSession2.state ≤ chainIndex estSession.state ∧
    chainedDispatch estSession kaEvent = singleDispatch estSession kaEvent :=
  ⟨rfl, by decide,
    dispatch_single_when_no_forward_move estSession kaEvent estSession2 [] rfl (by decide)⟩

/-- C9: every transition into Idle zeroes connect_retry_timer,
keepalive_timer and hold_timer, zeroes peer_port, and closes the TCP
connection, from any prior session state. -/
theorem change_state_idle_clears (s : Session) :
    (change_state s .idle).connect_retry_timer = 0 ∧
    (change_state s .idle).keepalive_timer = 0 ∧
    (change_state s .idle).hold_timer = 0 ∧
    (change_state s .idle).peer_port = 0 ∧
    (change_state s .idle).tcp_connection_established = false ∧
    (change_state s .idle).state = .idle := by
  exact ⟨rfl, rfl, rfl, rfl, rfl, rfl⟩

/-- C10: in Established, KeepAliveMsg and UpdateMsg set hold_timer to
hold_time and change nothing else: the result is exactly the input
session with hold_timer replaced by hold_time (so state,
connect_retry_counter, connect_retry_timer, keepalive_timer,
keepalive_time, hold_time, peer_port and peer_id are untouched) and no
message is sent. -/
theorem established_keepalive_update_frame (s : Session) (n m p q : Nat)
    (hst : s.state = .established) :
    fsm_established s { kind := .keepAliveMsg, serial := n, payload := p } =
      .ok ({ s with hold_timer := s.hold_time }, []) ∧
    fsm_established s { kind := .updateMsg, serial := m, payload := q } =
      .ok ({ s with hold_timer := s.hold_time }, []) := by
  exact ⟨rfl, rfl⟩

/-- Witness for C10 at a concrete Established session. -/
theorem established_keepalive_update_frame_witness :
    estSession.state = .established ∧
    (fsm_established estSession { kind := .keepAliveMsg, serial := 1, payload := 0 } =
      .ok ({ estSession with hold_timer := estSession.hold_time }, []) ∧
    fsm_established estSession { kind := .updateMsg, serial := 2, payload := 0 } =
      .ok ({ estSession with hold_timer := estSession.hold_time }, [])) :=
  ⟨rfl, established_keepalive_update_frame estSession 1 2 0 0 rfl⟩

end PyBgp
